import Mathlib

/-!
Verification development for the BookHaven storefront (React/TypeScript).

This file gives a shallow embedding of the pure computational core of the
repository — cart arithmetic and discount application (`src/pages/About.tsx`,
`Cart` component), catalog filter/sort/paginate (`src/pages/UserAccount.tsx`,
`Catalog` component), review aggregation and moderation
(`ReviewSection`, `reviewService`), and the checkout success/failure
callbacks (`src/pages/Checkout.tsx`) — and proves the specified properties
about it.  JavaScript numbers are modelled as rationals (`ℚ`), JavaScript
strings as Lean `String`, and the stateful review store as explicit state
passing over a list of reviews.
-/

/-! ## JavaScript string primitives

Models of `String.prototype.toLowerCase`, `toUpperCase`, `trim` and
`includes` (ASCII case mapping, which covers every string occurring in the
repository). -/

/-- Model of `s.toLowerCase()`: lower-case every character. -/
def jsToLower (s : String) : String :=
  ⟨s.data.map Char.toLower⟩

/-- Model of `s.toUpperCase()`: upper-case every character. -/
def jsToUpper (s : String) : String :=
  ⟨s.data.map Char.toUpper⟩

/-- Model of `s.trim()`: drop leading and trailing whitespace. -/
def jsTrim (s : String) : String :=
  ⟨(((s.data.dropWhile Char.isWhitespace).reverse.dropWhile Char.isWhitespace).reverse)⟩

/-- Contiguous-sublist test on character lists, mirroring
`String.prototype.includes` (empty needle always matches). -/
def hasSub : List Char → List Char → Bool
  | [], needle => needle.isEmpty
  | c :: t, needle => needle.isPrefixOf (c :: t) || hasSub t needle

/-- Model of `hay.includes(needle)`. -/
def jsIncludes (hay needle : String) : Bool :=
  hasSub hay.data needle.data

/-! ## Cart data model and reducers

`CartItem` is the element type of the cart slice (`Book` fields plus a
quantity).  The file `src/store/slices/cartSlice.ts` itself is not present in
the repository snapshot — only its test (`cartSlice.test.ts`) and its callers
are — so the four reducers are modelled from the specification. -/

structure CartItem where
  id : String
  title : String
  price : ℚ
  quantity : ℕ
  deriving DecidableEq, Repr

/-- Modelled from the spec: the reducer `addToCart` of the absent
`src/store/slices/cartSlice.ts` — "appends if id absent else increments
quantity". -/
def addToCart (items : List CartItem) (it : CartItem) : List CartItem :=
  if items.any (fun x => x.id == it.id) then
    items.map (fun x =>
      if x.id == it.id then { x with quantity := x.quantity + it.quantity } else x)
  else
    items ++ [it]

/-- Modelled from the spec: the reducer `removeFromCart` of the absent
`cartSlice.ts` — "filters out matching id, no error if absent". -/
def removeFromCart (items : List CartItem) (rid : String) : List CartItem :=
  items.filter (fun x => !(x.id == rid))

/-- Modelled from the spec: the reducer `updateQuantity` of the absent
`cartSlice.ts` — "sets quantity for matching id". -/
def updateQuantity (items : List CartItem) (uid : String) (qty : ℕ) : List CartItem :=
  items.map (fun x => if x.id == uid then { x with quantity := qty } else x)

/-- Modelled from the spec: the reducer `clearCart` of the absent
`cartSlice.ts` — "resets to empty list". -/
def clearCart (_items : List CartItem) : List CartItem := []

/-! ## Discount application (`Cart` component in `src/pages/About.tsx`) -/

/-- The handler `handleApplyDiscount`: returns the `(discount, error)` pair set by the
handler.  Source: `if (discountCode.trim().toUpperCase() === "SAVE10")
{ setDiscount(0.1); setError(""); } else { setDiscount(0);
setError("Invalid discount code"); }`. -/
def handleApplyDiscount (code : String) : ℚ × String :=
  if jsToUpper (jsTrim code) == "SAVE10" then (1/10, "")
  else (0, "Invalid discount code")

/-- Model of `subtotal = cart.reduce((acc, item) => acc + item.price * item.quantity, 0)`. -/
def subtotal (cart : List CartItem) : ℚ :=
  cart.foldl (fun acc it => acc + it.price * (it.quantity : ℚ)) 0

/-- The `(total, error)` pair displayed after applying a discount code:
`total = subtotal - subtotal * discount`. -/
def applyDiscountTotal (cart : List CartItem) (code : String) : ℚ × String :=
  let d := handleApplyDiscount code
  (subtotal cart - subtotal cart * d.1, d.2)

/-! ## Catalog (`Catalog` component in `src/pages/UserAccount.tsx`)

The `Book` record carries the fields the catalog reads.  `category` and
`releaseDate` are accessed by the component but absent from the mock data of
`bookService.ts`; the mock books model them as `""` and `0` (a mock book's
`undefined` category compares unequal to every selectable genre, exactly as
`""` does, and no claim sorts the mock set by date).  `releaseDate` is
modelled as the timestamp `new Date(b.releaseDate).getTime()`. -/

structure Book where
  id : String
  title : String
  author : String
  price : ℚ
  category : String
  releaseDate : ℤ
  coverImage : String
  deriving DecidableEq, Repr

/-- The fixed four-book mock set resolved by
`bookService.ts › fetchFeaturedBooks`. -/
def fetchFeaturedBooks : List Book :=
  [ { id := "1", title := "The Great Gatsby", author := "F. Scott Fitzgerald",
      price := 12.99, category := "", releaseDate := 0,
      coverImage := "https://placehold.co/200x300?text=Gatsby" },
    { id := "2", title := "To Kill a Mockingbird", author := "Harper Lee",
      price := 10.99, category := "", releaseDate := 0,
      coverImage := "https://placehold.co/200x300?text=Mockingbird" },
    { id := "3", title := "1984", author := "George Orwell",
      price := 9.99, category := "", releaseDate := 0,
      coverImage := "https://placehold.co/200x300?text=1984" },
    { id := "4", title := "Pride and Prejudice", author := "Jane Austen",
      price := 11.49, category := "", releaseDate := 0,
      coverImage := "https://placehold.co/200x300?text=Pride+%26+Prejudice" } ]

/-- The `Catalog` component's filter state: title search, author filter,
genre, sort key and 1-based page number. -/
structure FilterState where
  search : String
  author : String
  genre : String
  sort : String
  page : ℕ
  deriving DecidableEq, Repr

/-- Stable insertion of `a` into `l`: `a` goes before the first element that
does not strictly precede it.  Models the stable `Array.prototype.sort`. -/
def insertStable (le : α → α → Bool) (a : α) : List α → List α
  | [] => [a]
  | b :: t => if le b a && !(le a b) then b :: insertStable le a t else a :: b :: t

/-- Stable sort by a total boolean `le`, modelling `Array.prototype.sort`
with a numeric comparator `c` via `le a b = (c a b ≤ 0)`. -/
def sortByLe (le : α → α → Bool) : List α → List α
  | [] => []
  | a :: t => insertStable le a (sortByLe le t)

/-- Page size: `itemsPerPage = 8`. -/
def itemsPerPage : ℕ := 8

/-- The pure core of `Catalog.loadBooks`: from the full book list and the
filter state, the `(paginated, error)` pair the component renders, following
the source line by line (title filter, author filter, genre filter, sort,
slice, empty-message). -/
def loadBooks (allBooks : List Book) (st : FilterState) : List Book × String :=
  let f1 := if jsTrim st.search == "" then allBooks
            else allBooks.filter (fun b => jsIncludes (jsToLower b.title) (jsToLower st.search))
  let f2 := if jsTrim st.author == "" then f1
            else f1.filter (fun b => jsIncludes (jsToLower b.author) (jsToLower st.author))
  let f3 := if jsTrim st.genre == "" then f2
            else f2.filter (fun b => b.category == st.genre)
  let sorted :=
    if st.sort == "priceAsc" then sortByLe (fun a b => a.price ≤ b.price) f3
    else if st.sort == "priceDesc" then sortByLe (fun a b => b.price ≤ a.price) f3
    else if st.sort == "releaseDate" then sortByLe (fun a b => b.releaseDate ≤ a.releaseDate) f3
    else f3
  let startIndex := (st.page - 1) * itemsPerPage
  let paginated := (sorted.drop startIndex).take itemsPerPage
  (paginated, if paginated.length == 0 then "No results found" else "")

/-! Specification-side pipeline, written stage by stage from the spec's words
("filter by title substring (case-insensitive) → filter by author substring →
filter by exact category → sort (priceAsc, priceDesc, releaseDate descending)
→ paginate by fixed page size"; a blank filter component is unset and does
not filter).  It is compared with `loadBooks` in the catalog theorems. -/

/-- Spec stage: case-insensitive title-substring filter (unset when blank). -/
def filterByTitle (q : String) (bs : List Book) : List Book :=
  if jsTrim q == "" then bs
  else bs.filter (fun b => jsIncludes (jsToLower b.title) (jsToLower q))

/-- Spec stage: case-insensitive author-substring filter (unset when blank). -/
def filterByAuthor (q : String) (bs : List Book) : List Book :=
  if jsTrim q == "" then bs
  else bs.filter (fun b => jsIncludes (jsToLower b.author) (jsToLower q))

/-- Spec stage: exact category match (unset when blank). -/
def filterByCategory (g : String) (bs : List Book) : List Book :=
  if jsTrim g == "" then bs else bs.filter (fun b => b.category == g)

/-- Spec stage: sort by key — `priceAsc` ascending by price, `priceDesc`
descending by price, `releaseDate` descending by date, anything else
unsorted. -/
def sortBooks (key : String) (bs : List Book) : List Book :=
  if key == "priceAsc" then sortByLe (fun a b => a.price ≤ b.price) bs
  else if key == "priceDesc" then sortByLe (fun a b => b.price ≤ a.price) bs
  else if key == "releaseDate" then sortByLe (fun a b => b.releaseDate ≤ a.releaseDate) bs
  else bs

/-- Spec stage: the filtered-and-sorted list, before pagination. -/
def filteredSorted (allBooks : List Book) (st : FilterState) : List Book :=
  sortBooks st.sort (filterByCategory st.genre (filterByAuthor st.author (filterByTitle st.search allBooks)))

/-- Spec stage: page `page` (1-based) of size 8. -/
def paginate (page : ℕ) (bs : List Book) : List Book :=
  (bs.drop ((page - 1) * itemsPerPage)).take itemsPerPage

/-- The whole spec-side pipeline: filters, sort, pagination, and the
"No results found" message exactly when the page is empty. -/
def catalogSpec (allBooks : List Book) (st : FilterState) : List Book × String :=
  let pg := paginate st.page (filteredSorted allBooks st)
  (pg, if pg.isEmpty then "No results found" else "")

/-- The two renderings of "the page is empty" agree. -/
theorem ifEmptyMsg (l : List Book) :
    (if l.length == 0 then "No results found" else "") =
      (if l.isEmpty then "No results found" else "") := by
  cases l <;> rfl

/-- The source computation and the spec pipeline agree on every input. -/
theorem loadBooks_eq_catalogSpec (allBooks : List Book) (st : FilterState) :
    loadBooks allBooks st = catalogSpec allBooks st := by
  simp only [loadBooks, catalogSpec, filteredSorted, paginate, filterByTitle,
    filterByAuthor, filterByCategory, sortBooks, ifEmptyMsg]

/-- The `Next` button handler: `setPage(page + 1)` — no upper bound. -/
def nextPage (p : ℕ) : ℕ := p + 1

/-- The `Prev` button: `disabled` exactly when `page === 1`. -/
def prevDisabled (p : ℕ) : Bool := p == 1

/-! ## Reviews (`reviewService` and the `ReviewSection` component)

The mutable module variable `mockReviews` of the review service is modelled
by explicit state passing: a `List Review` threaded through the service
operations.  Ratings are the integers produced by `StarRating`. -/

structure Review where
  id : String
  user : String
  rating : ℕ
  comment : String
  approved : Bool
  deriving DecidableEq, Repr

/-- The initial contents of the service's `mockReviews` store. -/
def initialReviews : List Review :=
  [ { id := "1", user := "Alice", rating := 5, comment := "Fantastic read!", approved := true },
    { id := "2", user := "Bob", rating := 4, comment := "Enjoyed it a lot.", approved := true } ]

/-- Service call `fetchReviews`: resolves `mockReviews.filter((r) => r.approved)`. -/
def fetchReviews (store : List Review) : List Review :=
  store.filter (fun r => r.approved)

/-- The review object built by `submitReview`: generated id (`Date.now()`
modelled as the `now` argument), `approved: false`, then the submitted
fields. -/
def mkSubmittedReview (now u : String) (r : ℕ) (c : String) : Review :=
  { id := now, user := u, rating := r, comment := c, approved := false }

/-- Service call `submitReview`: pushes the new unapproved review onto the store. -/
def submitReview (store : List Review) (now u : String) (r : ℕ) (c : String) :
    List Review :=
  store ++ [mkSubmittedReview now u r c]

/-- Service call `approveReview`: maps the store, flipping `approved` on the matching id. -/
def approveReview (store : List Review) (reviewId : String) : List Review :=
  store.map (fun r => if r.id == reviewId then { r with approved := true } else r)

/-- The operations that touch the review store, for stating the moderation
invariant. -/
inductive ReviewOp where
  | submit (now u : String) (rating : ℕ) (comment : String)
  | approve (reviewId : String)
  | fetch
  deriving DecidableEq, Repr

/-- State transition of the review store under one service call
(`fetchReviews` reads without writing). -/
def applyReviewOp : ReviewOp → List Review → List Review
  | .submit now u r c, store => submitReview store now u r c
  | .approve i, store => approveReview store i
  | .fetch, store => store

/-! Rendering `toFixed(1)` on an exact rational: the nearest multiple of 1/10, ties
upward (ECMAScript picks the larger candidate integer), rendered with one
digit after the point.  All values reaching it in this program are
nonnegative. -/

/-- Model of `x.toFixed(1)` for nonnegative `x`, on the exact rational value. -/
def toFixed1 (q : ℚ) : String :=
  let n : ℤ := ⌊q * 10 + 1/2⌋
  toString (n / 10) ++ "." ++ toString (n % 10)

/-- Derived value `ReviewSection.averageRating`: mean of the fetched reviews' ratings to
one decimal place, or `"N/A"` when there are none. -/
def averageRating (reviews : List Review) : String :=
  if reviews.length > 0 then
    toFixed1 ((reviews.foldl (fun acc r => acc + (r.rating : ℚ)) 0) / (reviews.length : ℚ))
  else "N/A"

/-- What the component displays for a given store: `averageRating` applied
to the `fetchReviews` result it loaded. -/
def displayedAverage (store : List Review) : String :=
  averageRating (fetchReviews store)

/-- Handler `ReviewSection.handleSubmit`, as the pair
`(submitReview called?, message shown)`: login guard first, then the
rating/comment guard, then submission. -/
def handleSubmit (token _name : String) (rating : ℕ) (comment : String) :
    Bool × String :=
  if token == "" then (false, "You must be logged in to leave a review.")
  else if rating == 0 || jsTrim comment == "" then
    (false, "Please provide both a rating and a comment.")
  else (true, "Your review has been submitted and is pending approval.")

/-! ## Checkout (`src/pages/Checkout.tsx` and `PayPalPayment`) -/

/-- The checkout page's state: the cart slice's items plus the two local
message fields. -/
structure CheckoutState where
  cartItems : List CartItem
  confirmation : String
  error : String
  deriving DecidableEq, Repr

/-- Callback `Checkout.handleSuccess`: `dispatch(clearCart())`, set the confirmation,
clear the error. -/
def handleSuccess (s : CheckoutState) : CheckoutState :=
  { s with cartItems := clearCart s.cartItems,
           confirmation := "Order confirmed! An invoice has been sent to your email.",
           error := "" }

/-- Callback `Checkout.handleFailure`: clear the confirmation, set the error; no cart
action is dispatched. -/
def handleFailure (s : CheckoutState) : CheckoutState :=
  { s with confirmation := "", error := "Payment failed. Please try again." }

/-- Callback `PayPalPayment.onApprove`: capture the order, then the success callback;
a capture error routes to the failure callback. -/
def paypalOnApprove (captureOk : Bool) (s : CheckoutState) : CheckoutState :=
  if captureOk then handleSuccess s else handleFailure s

/-- Callback `PayPalPayment.onError`: the failure callback. -/
def paypalOnError (s : CheckoutState) : CheckoutState :=
  handleFailure s

/-! ## Theorems -/

/-- The one-item cart used as a concrete input in several witnesses. -/
def demoCart : List CartItem :=
  [{ id := "1", title := "Book One", price := 10, quantity := 1 }]

/-- C1 counterexample: the non-empty code `"save10"` differs from `"SAVE10"`,
yet applying it to a cart of subtotal 10 yields total 9 (a 10% discount) and
an empty error, not total 10 with the inline error the claim requires. -/
theorem C1_counterexample :
    ("save10" : String) ≠ "" ∧ ("save10" : String) ≠ "SAVE10" ∧
      subtotal demoCart = 10 ∧
      applyDiscountTotal demoCart "save10" = (9, "") := by
  have hsub : subtotal demoCart = 10 := by norm_num [subtotal, demoCart]
  have hc : (jsToUpper (jsTrim "save10") == "SAVE10") = true := rfl
  refine ⟨by decide, by decide, hsub, ?_⟩
  simp only [applyDiscountTotal, handleApplyDiscount, hc, if_true, hsub]
  norm_num

/-- C1 (amended): applying `"SAVE10"` yields total `0.9 × S` and no error,
and any non-empty code whose trimmed upper-cased form is not `"SAVE10"`
yields total `S` and the inline error `"Invalid discount code"`. -/
theorem C1_discount_total (cart : List CartItem) (code : String)
    (_hne : code ≠ "") (hnorm : jsToUpper (jsTrim code) ≠ "SAVE10") :
    applyDiscountTotal cart "SAVE10" = ((9 : ℚ)/10 * subtotal cart, "") ∧
      applyDiscountTotal cart code = (subtotal cart, "Invalid discount code") := by
  constructor
  · have h : (jsToUpper (jsTrim "SAVE10") == "SAVE10") = true := rfl
    simp only [applyDiscountTotal, handleApplyDiscount, h, if_true]
    have harith : subtotal cart - subtotal cart * (1/10) = (9 : ℚ)/10 * subtotal cart := by
      ring
    rw [harith]
  · have h : (jsToUpper (jsTrim code) == "SAVE10") = false := by
      simpa using hnorm
    simp only [applyDiscountTotal, handleApplyDiscount, h, Bool.false_eq_true,
      if_false]
    have harith : subtotal cart - subtotal cart * 0 = subtotal cart := by ring
    rw [harith]

/-- C1 witness: the amended discount theorem at the concrete cart `demoCart`
and the concrete rejected code `"abc"`. -/
theorem C1_discount_total_witness :
    applyDiscountTotal demoCart "SAVE10" = ((9 : ℚ)/10 * subtotal demoCart, "") ∧
      applyDiscountTotal demoCart "abc" = (subtotal demoCart, "Invalid discount code") :=
  C1_discount_total demoCart "abc" (by decide) (by decide)

/-- C5: in checkout, the success callback empties the cart (through
`clearCart`) and shows the confirmation message with no error, while the
failure callback shows the error message, clears the confirmation and leaves
the cart items exactly unchanged; the PayPal widget routes a successful
capture to the success callback and a capture error or SDK error to the
failure callback. -/
theorem C5_checkout_callbacks (s : CheckoutState) :
    (handleSuccess s).cartItems = [] ∧
      (handleSuccess s).cartItems = clearCart s.cartItems ∧
      (handleSuccess s).confirmation =
        "Order confirmed! An invoice has been sent to your email." ∧
      (handleSuccess s).error = "" ∧
      (handleFailure s).cartItems = s.cartItems ∧
      (handleFailure s).confirmation = "" ∧
      (handleFailure s).error = "Payment failed. Please try again." ∧
      paypalOnApprove true s = handleSuccess s ∧
      paypalOnApprove false s = handleFailure s ∧
      paypalOnError s = handleFailure s :=
  ⟨rfl, rfl, rfl, rfl, rfl, rfl, rfl, rfl, rfl, rfl⟩

/-- C6: the catalog computation with author filter `"orwell"`, no title
filter, no genre, no sort, page 1, over the four-book mock set returns
exactly the `"1984"` entry (and no error message). -/
theorem C6_orwell_filter :
    loadBooks fetchFeaturedBooks
        { search := "", author := "orwell", genre := "", sort := "", page := 1 } =
      ([{ id := "3", title := "1984", author := "George Orwell",
          price := 9.99, category := "", releaseDate := 0,
          coverImage := "https://placehold.co/200x300?text=1984" }], "") := by
  rfl

/-- C7 counterexample: with an empty token (logged-out user), a submission
with rating 0 shows the login message, not
`"Please provide both a rating and a comment."` as the claim requires for
every such submission. -/
theorem C7_counterexample :
    handleSubmit "" "Anon" 0 "hello" =
        (false, "You must be logged in to leave a review.") ∧
      (handleSubmit "" "Anon" 0 "hello").2 ≠
        "Please provide both a rating and a comment." := by
  refine ⟨by decide, by decide⟩

/-- C7 (amended): for a logged-in user (non-empty token), a submission whose
rating is 0 or whose comment trims to empty does not call `submitReview` and
shows `"Please provide both a rating and a comment."`. -/
theorem C7_review_validation (token nm : String) (rating : ℕ) (comment : String)
    (htok : token ≠ "") (hbad : rating = 0 ∨ jsTrim comment = "") :
    handleSubmit token nm rating comment =
      (false, "Please provide both a rating and a comment.") := by
  have h1 : (token == "") = false := by simpa using htok
  have h2 : (rating == 0 || jsTrim comment == "") = true := by
    rcases hbad with h | h <;> simp [h]
  simp [handleSubmit, h1, h2]

/-- C7 witness: the amended validation theorem at the concrete input
`("tok", "Anon", 0, "hello")`. -/
theorem C7_review_validation_witness :
    handleSubmit "tok" "Anon" 0 "hello" =
      (false, "Please provide both a rating and a comment.") :=
  C7_review_validation "tok" "Anon" 0 "hello" (by decide) (Or.inl rfl)

/-- C10: discount-code matching normalizes its input — every code whose
trimmed upper-cased form is `"SAVE10"` (for example `" save10 "`) sets the
discount to 10% and clears the error, and every other string, the empty
string included, sets the discount to 0 and the error to
`"Invalid discount code"`. -/
theorem C10_discount_normalization (code : String)
    (hyes : jsToUpper (jsTrim code) = "SAVE10") :
    handleApplyDiscount code = (1/10, "") ∧
      (∀ other : String, jsToUpper (jsTrim other) ≠ "SAVE10" →
        handleApplyDiscount other = (0, "Invalid discount code")) ∧
      handleApplyDiscount " save10 " = (1/10, "") ∧
      handleApplyDiscount "" = (0, "Invalid discount code") := by
  refine ⟨?_, ?_, by rfl, by rfl⟩
  · have h : (jsToUpper (jsTrim code) == "SAVE10") = true := by simpa using hyes
    simp [handleApplyDiscount, h]
  · intro other hno
    have h : (jsToUpper (jsTrim other) == "SAVE10") = false := by simpa using hno
    simp [handleApplyDiscount, h]

/-- C10 witness: the normalization theorem at the concrete code
`" save10 "`, whose trimmed upper-cased form is `"SAVE10"`. -/
theorem C10_discount_normalization_witness :
    handleApplyDiscount " save10 " = (1/10, "") :=
  (C10_discount_normalization " save10 " (by decide)).1

/-- C2: for every book list and filter state, the catalog view equals the
spec pipeline (title filter, author filter, category filter, sort, paginate
by 8), and the `"No results found"` message is shown exactly when the
resulting page is empty. -/
theorem C2_catalog_pipeline (allBooks : List Book) (st : FilterState) :
    loadBooks allBooks st = catalogSpec allBooks st ∧
      ((loadBooks allBooks st).1 = [] ↔
        (loadBooks allBooks st).2 = "No results found") := by
  refine ⟨loadBooks_eq_catalogSpec allBooks st, ?_⟩
  rw [loadBooks_eq_catalogSpec]
  cases h : paginate st.page (filteredSorted allBooks st) <;>
    simp [catalogSpec, h]

/-- Helper: the component's running `reduce` over ratings equals the sum of
the mapped ratings. -/
theorem foldl_ratings (l : List Review) (a : ℚ) :
    l.foldl (fun acc r => acc + (r.rating : ℚ)) a =
      a + ((l.map (fun r => (r.rating : ℚ))).sum) := by
  induction l generalizing a with
  | nil => simp
  | cons hd tl ih => simp [ih, add_assoc]

/-- Helper: `toFixed(1)` of the exact mean `9/2` renders `"4.5"`. -/
theorem toFixed1_nine_halves : toFixed1 (9/2) = "4.5" := by
  have hfl : ⌊(9/2 : ℚ) * 10 + 1/2⌋ = (45 : ℤ) := by norm_num
  simp only [toFixed1, hfl]
  rfl

/-- C3: the displayed average rating is the arithmetic mean of `rating` over
exactly the approved reviews, rendered to one decimal place; over zero
approved reviews it is the literal `"N/A"`; and over the two approved
reviews with ratings 5 and 4 it renders `"4.5"`. -/
theorem C3_average_rating :
    (∀ store : List Review, store.filter (fun r => r.approved) ≠ [] →
        displayedAverage store =
          toFixed1 (((store.filter (fun r => r.approved)).map
              (fun r => (r.rating : ℚ))).sum /
            ((store.filter (fun r => r.approved)).length : ℚ))) ∧
      (∀ store : List Review, store.filter (fun r => r.approved) = [] →
        displayedAverage store = "N/A") ∧
      displayedAverage initialReviews = "4.5" := by
  have hgen : ∀ store : List Review, store.filter (fun r => r.approved) ≠ [] →
      displayedAverage store =
        toFixed1 (((store.filter (fun r => r.approved)).map
            (fun r => (r.rating : ℚ))).sum /
          ((store.filter (fun r => r.approved)).length : ℚ)) := by
    intro store hne
    have hpos : 0 < (store.filter (fun r => r.approved)).length :=
      List.length_pos.mpr hne
    simp only [displayedAverage, averageRating, fetchReviews, hpos, if_pos,
      foldl_ratings, zero_add]
  refine ⟨hgen, ?_, ?_⟩
  · intro store hnil
    simp [displayedAverage, averageRating, fetchReviews, hnil]
  · rw [hgen initialReviews (by decide)]
    have harg : ((initialReviews.filter (fun r => r.approved)).map
          (fun r => (r.rating : ℚ))).sum /
        ((initialReviews.filter (fun r => r.approved)).length : ℚ) = 9/2 := by
      norm_num [initialReviews]
    rw [harg, toFixed1_nine_halves]

/-- C3 witness: the mean formula at the concrete store `initialReviews`,
whose approved set is non-empty. -/
theorem C3_average_rating_witness :
    displayedAverage initialReviews =
      toFixed1 (((initialReviews.filter (fun r => r.approved)).map
          (fun r => (r.rating : ℚ))).sum /
        ((initialReviews.filter (fun r => r.approved)).length : ℚ)) :=
  C3_average_rating.1 initialReviews (by decide)

/-- C4 counterexample: the one-item cart `demoCart` has pairwise-distinct
ids, yet adding a second item with the same id `"1"` and then removing id
`"1"` yields the empty cart, which is not a permutation of `demoCart`. -/
theorem C4_counterexample :
    (demoCart.map CartItem.id).Nodup ∧
      ¬ (removeFromCart
          (addToCart demoCart { id := "1", title := "Book One", price := 10, quantity := 1 })
          "1").Perm demoCart := by
  have hres : removeFromCart
      (addToCart demoCart { id := "1", title := "Book One", price := 10, quantity := 1 })
      "1" = [] := rfl
  refine ⟨by decide, ?_⟩
  rw [hres]
  intro hp
  have hlen := hp.length_eq
  simp [demoCart] at hlen

/-- C4 (amended): for a cart whose items have pairwise-distinct ids and an
item whose id does not occur in the cart, `addToCart` followed by
`removeFromCart` of that id restores the prior cart item list exactly (in
particular up to reordering). -/
theorem C4_add_remove (items : List CartItem) (it : CartItem)
    (_hdistinct : (items.map CartItem.id).Nodup)
    (habsent : it.id ∉ items.map CartItem.id) :
    removeFromCart (addToCart items it) it.id = items := by
  have hany : (items.any (fun x => x.id == it.id)) = false := by
    by_contra hcon
    rw [Bool.not_eq_false, List.any_eq_true] at hcon
    obtain ⟨x, hx, hbeq⟩ := hcon
    have hxid : x.id = it.id := beq_iff_eq.mp hbeq
    exact habsent (hxid ▸ List.mem_map_of_mem CartItem.id hx)
  simp only [addToCart, hany, Bool.false_eq_true, if_false]
  simp only [removeFromCart, List.filter_append]
  have h1 : items.filter (fun x => !(x.id == it.id)) = items := by
    rw [List.filter_eq_self]
    intro a ha
    have : a.id ≠ it.id := by
      intro he
      exact habsent (he ▸ List.mem_map_of_mem CartItem.id ha)
    simp [this]
  have h2 : [it].filter (fun x => !(x.id == it.id)) = [] := by simp
  rw [h1, h2, List.append_nil]

/-- C4 witness: the amended add/remove round trip at the concrete cart
`demoCart` and a fresh item with id `"2"`. -/
theorem C4_add_remove_witness :
    removeFromCart
        (addToCart demoCart { id := "2", title := "Other", price := 5, quantity := 1 })
        "2" = demoCart :=
  C4_add_remove demoCart { id := "2", title := "Other", price := 5, quantity := 1 }
    (by decide) (by decide)

/-- C8: every review created by `submitReview` enters the store with
`approved = false`, and a stored review's `approved` field flips from
`false` to `true` only under `approveReview` with that review's id — no
other service operation sets it. -/
theorem C8_moderation_invariant :
    (∀ (store : List Review) (now u : String) (r : ℕ) (c : String),
        applyReviewOp (ReviewOp.submit now u r c) store =
          store ++ [mkSubmittedReview now u r c] ∧
        (mkSubmittedReview now u r c).approved = false) ∧
      (∀ (op : ReviewOp) (store : List Review) (k : ℕ)
          (hk : k < store.length) (hk2 : k < (applyReviewOp op store).length),
          (store.get ⟨k, hk⟩).approved = false →
          ((applyReviewOp op store).get ⟨k, hk2⟩).approved = true →
          op = ReviewOp.approve ((store.get ⟨k, hk⟩).id)) := by
  constructor
  · intro store now u r c
    exact ⟨rfl, rfl⟩
  · intro op store k hk hk2 hfalse htrue
    simp only [List.get_eq_getElem] at hfalse htrue
    cases op with
    | submit now u r c =>
        exfalso
        have heq : (applyReviewOp (ReviewOp.submit now u r c) store)[k] = store[k] := by
          show (store ++ [mkSubmittedReview now u r c])[k] = store[k]
          exact List.getElem_append_left hk
        rw [heq, hfalse] at htrue
        exact Bool.false_ne_true htrue
    | approve i =>
        have heq : (applyReviewOp (ReviewOp.approve i) store)[k] =
            (fun r0 => if r0.id == i then { r0 with approved := true } else r0)
              store[k] := by
          show ((store.map _))[k] = _
          rw [List.getElem_map]
        rw [heq] at htrue
        by_cases hid : (store[k].id == i) = true
        · have hidEq : store[k].id = i := beq_iff_eq.mp hid
          simp only [List.get_eq_getElem, hidEq]
        · exfalso
          simp only [hid, Bool.false_eq_true, if_false] at htrue
          rw [hfalse] at htrue
          exact Bool.false_ne_true htrue
    | fetch =>
        exfalso
        have heq : (applyReviewOp ReviewOp.fetch store)[k] = store[k] := rfl
        rw [heq, hfalse] at htrue
        exact Bool.false_ne_true htrue

/-- C8 witness: the flip-only-by-approve direction at the concrete store
holding one unapproved review with id `"1"`, under the operation
`approve "1"`. -/
theorem C8_moderation_invariant_witness :
    ReviewOp.approve "1" =
      ReviewOp.approve
        ((([⟨"1", "A", 5, "x", false⟩] : List Review).get ⟨0, by decide⟩).id) :=
  C8_moderation_invariant.2 (ReviewOp.approve "1")
    [⟨"1", "A", 5, "x", false⟩] 0 (by decide) (by decide) (by decide) (by decide)

/-- C9: the `Next` control always increments the page with no upper bound,
`Prev` is disabled exactly at page 1, and whenever `(page − 1) × 8` reaches
the length of the filtered (and sorted) book list the computed page is empty
and `"No results found"` is shown — even when the filtered list itself is
non-empty. -/
theorem C9_pagination (allBooks : List Book) (st : FilterState)
    (hbeyond : (filteredSorted allBooks st).length ≤ (st.page - 1) * itemsPerPage) :
    (∀ p : ℕ, nextPage p = p + 1) ∧
      (∀ p : ℕ, prevDisabled p = true ↔ p = 1) ∧
      loadBooks allBooks st = ([], "No results found") := by
  refine ⟨fun p => rfl, fun p => by simp [prevDisabled], ?_⟩
  rw [loadBooks_eq_catalogSpec]
  have hdrop : (filteredSorted allBooks st).drop ((st.page - 1) * itemsPerPage) = [] :=
    List.drop_eq_nil_of_le hbeyond
  simp [catalogSpec, paginate, hdrop]

/-- C9 witness: page 2 over the unfiltered four-book mock set — the filtered
list is non-empty, yet the page is empty and the message is shown. -/
theorem C9_pagination_witness :
    filteredSorted fetchFeaturedBooks
        { search := "", author := "", genre := "", sort := "", page := 2 } ≠ [] ∧
      loadBooks fetchFeaturedBooks
        { search := "", author := "", genre := "", sort := "", page := 2 } =
        ([], "No results found") :=
  ⟨by decide,
    (C9_pagination fetchFeaturedBooks
        { search := "", author := "", genre := "", sort := "", page := 2 }
        (by decide)).2.2⟩
